import Mathlib

/-!
# Verification of the autologin captive-portal extension

Shallow embedding of the repository's `background.js` (login orchestration
state machine, connectivity probe, form-token extraction, session-timeout
detection) and of `crypto-utils.js` (credential vault), with theorems
settling the specification claims.

External browser primitives (fetch, WebCrypto AES-GCM, chrome.storage) are
modelled abstractly: a fetch either yields a response with a numeric status
and a body string, or throws (an AbortError for the bounded timeout, or a
generic Error); AES-GCM under the manager's key is an abstract authenticated
container whose decryption failure classes mirror the ones the code
distinguishes. All logic written in the repository itself (branching,
messages, counters, regex patterns, keyword scans, timing arithmetic) is
translated directly.
-/

namespace Autologin

/-- The status strings of the mutable `state` object in `background.js`. -/
inductive Status where
  | idle
  | checking
  | connected
  | needsLogin
  | error
  | networkDown
deriving DecidableEq

/-- The `state` object of `background.js` (lines 4-12). Timestamps are
JS millisecond numbers, modelled as integers. -/
structure AuthState where
  status : Status
  lastError : Option String
  lastLoginAt : Option Int
  nextRenewAt : Option Int
  isConnected : Bool
  retryCount : Nat
  sessionTimeout : Nat
deriving DecidableEq

/-- Initial `state` value (`background.js` lines 4-12). -/
def initialState : AuthState :=
  { status := .idle
    lastError := none
    lastLoginAt := none
    nextRenewAt := none
    isConnected := false
    retryCount := 0
    sessionTimeout := 1200 }

/-- `PORTAL_URL` constant (`background.js` line 15). -/
def PORTAL_URL : String := "https://agnigarh.iitg.ac.in:1442/login?"

/-- `RENEW_BEFORE` constant, seconds (`background.js` line 17). -/
def RENEW_BEFORE : Nat := 120

/-- `RETRY_DELAYS` backoff ladder, seconds (`background.js` line 19). -/
def RETRY_DELAYS : List Nat := [5, 15, 45, 120]

/-- `response.ok` of the Fetch API: status in the inclusive range 200-299. -/
def okStatus (s : Nat) : Bool := 200 ≤ s && s ≤ 299

/-! ## Regular-expression patterns

`background.js` matches a handful of fixed regular expressions against
portal HTML. Each of them is a linear sequence of case-insensitive
literals, single-character classes, and greedy starred/plussed classes with
at most one capturing group (a plussed class). They are embedded as token
lists and run by a backtracking matcher with JS semantics: leftmost start
position wins, and greedy repetitions try the longest extent first. -/

/-- JS `\s` for the characters relevant here (ASCII whitespace and NBSP). -/
def jsSpace (c : Char) : Bool :=
  c = ' ' || c = '\t' || c = '\n' || c = '\r' || c = '\x0b' || c = '\x0c' ||
    c = Char.ofNat 160

/-- The class `[_\s]` used by the session-timeout patterns. -/
def uscSpace (c : Char) : Bool := c = '_' || jsSpace c

/-- The class `[:\=]` used by the session-timeout patterns. -/
def colonOrEq (c : Char) : Bool := c = ':' || c = '='

/-- Single-quote character, kept out of string literals. -/
def squoteChar : Char := Char.ofNat 39

/-- Single-quote as a one-character string. -/
def squote : String := String.mk [squoteChar]

/-- The class `[^"]`. -/
def notDQ (c : Char) : Bool := c ≠ '"'

/-- The class `[^']`. -/
def notSQ (c : Char) : Bool := c ≠ squoteChar

/-- The class `[^>]`. -/
def notGT (c : Char) : Bool := c ≠ '>'

/-- One token of a linearised regular expression. -/
inductive Tok where
  | lit (s : String)
  | one (p : Char → Bool)
  | star (p : Char → Bool)
  | plus (p : Char → Bool)
  | cap (p : Char → Bool)

/-- Consume a case-insensitive literal from the input, returning the rest. -/
def litMatch : List Char → List Char → Option (List Char)
  | [], cs => some cs
  | _ :: _, [] => none
  | l :: ls, c :: cs => if l.toLower = c.toLower then litMatch ls cs else none

/-- All splits of the maximal run of `p`-characters, longest first, down to
a run of length `lo`; each entry is (consumed, rest). Greedy backtracking
order for `p*` (`lo = 0`) and `p+` (`lo = 1`). -/
def greedySplits (p : Char → Bool) (cs : List Char) (lo : Nat) :
    List (List Char × List Char) :=
  let n := (cs.takeWhile p).length
  (List.range (n + 1)).reverse.filterMap
    (fun i => if lo ≤ i then some (cs.take i, cs.drop i) else none)

/-- Backtracking matcher: match the token list at the head of the input
(trailing input may remain), returning the capture group's characters. -/
def matchToks : List Tok → List Char → Option (List Char) → Option (List Char)
  | [], _, cap => some (cap.getD [])
  | .lit s :: ts, cs, cap => (litMatch s.data cs).bind (fun rest => matchToks ts rest cap)
  | .one p :: ts, cs, cap =>
    match cs with
    | [] => none
    | c :: rest => if p c then matchToks ts rest cap else none
  | .star p :: ts, cs, cap =>
    (greedySplits p cs 0).findSome? (fun pr => matchToks ts pr.2 cap)
  | .plus p :: ts, cs, cap =>
    (greedySplits p cs 1).findSome? (fun pr => matchToks ts pr.2 cap)
  | .cap p :: ts, cs, _ =>
    (greedySplits p cs 1).findSome? (fun pr => matchToks ts pr.2 (some pr.1))

/-- Leftmost search: try the pattern at every start position in order. -/
def searchFrom (pat : List Tok) : List Char → Option (List Char)
  | [] => matchToks pat [] none
  | c :: rest =>
    match matchToks pat (c :: rest) none with
    | some cap => some cap
    | none => searchFrom pat rest

/-- `String.match(regex)` returning the first capture group. -/
def regexSearch (pat : List Tok) (s : String) : Option String :=
  (searchFrom pat s.data).map String.mk

/-- First pattern of an ordered list that matches anywhere, first match
wins (the per-field loop of `extractFormData`, lines 299-308). -/
def firstPatMatch (pats : List (List Tok)) (html : String) : Option String :=
  match pats with
  | [] => none
  | p :: rest =>
    match regexSearch p html with
    | some v => some v
    | none => firstPatMatch rest html

/-- The four `magic` patterns (`background.js` lines 285-290). -/
def magicPatterns : List (List Tok) :=
  [ [.lit "name=\"magic\"", .plus jsSpace, .lit "value=\"", .cap notDQ, .lit "\""]
  , [.lit ("name=" ++ squote ++ "magic" ++ squote), .plus jsSpace,
     .lit ("value=" ++ squote), .cap notSQ, .lit squote]
  , [.lit "<input", .star notGT, .lit "name=\"magic\"", .star notGT,
     .lit "value=\"", .cap notDQ, .lit "\""]
  , [.lit "value=\"", .cap notDQ, .lit "\"", .star notGT, .lit "name=\"magic\""] ]

/-- The four `4Tredir` patterns (`background.js` lines 291-296). -/
def tredirPatterns : List (List Tok) :=
  [ [.lit "name=\"4Tredir\"", .plus jsSpace, .lit "value=\"", .cap notDQ, .lit "\""]
  , [.lit ("name=" ++ squote ++ "4Tredir" ++ squote), .plus jsSpace,
     .lit ("value=" ++ squote), .cap notSQ, .lit squote]
  , [.lit "<input", .star notGT, .lit "name=\"4Tredir\"", .star notGT,
     .lit "value=\"", .cap notDQ, .lit "\""]
  , [.lit "value=\"", .cap notDQ, .lit "\"", .star notGT, .lit "name=\"4Tredir\""] ]

/-- Result of `extractFormData` (`background.js` lines 280-316). -/
structure FormData where
  magic : Option String
  tredir : String
deriving DecidableEq

/-- `extractFormData` (`background.js` lines 280-316): first matching
pattern per field; missing `4Tredir` defaults to `PORTAL_URL`. -/
def extractFormData (html : String) : FormData :=
  { magic := firstPatMatch magicPatterns html
    tredir := (firstPatMatch tredirPatterns html).getD PORTAL_URL }

/-- The three session-timeout patterns (`background.js` lines 320-324). -/
def timeoutPatterns : List (List Tok) :=
  [ [.lit "session", .star uscSpace, .lit "timeout", .star uscSpace,
     .one colonOrEq, .star jsSpace, .cap Char.isDigit]
  , [.lit "keepalive", .star uscSpace, .one colonOrEq, .star jsSpace, .cap Char.isDigit]
  , [.lit "timeout", .star uscSpace, .one colonOrEq, .star jsSpace,
     .cap Char.isDigit, .star uscSpace, .lit "min"] ]

/-- `parseInt` on an all-digit capture. -/
def parseDigits (s : String) : Nat :=
  s.data.foldl (fun n c => n * 10 + (c.toNat - 48)) 0

/-- The raw matched value of the first session-timeout pattern that hits. -/
def timeoutHint (html : String) : Option Nat :=
  (firstPatMatch timeoutPatterns html).map parseDigits

/-- `detectSessionTimeout` (`background.js` lines 319-338): matched value
under 60 is taken as minutes; with no match the current `sessionTimeout`
value is returned. -/
def detectSessionTimeout (html : String) (sessionTimeout : Nat) : Nat :=
  match timeoutHint html with
  | some t => if t < 60 then t * 60 else t
  | none => sessionTimeout

/-! ## Credential vault (`crypto-utils.js`)

`JSON.stringify`/`JSON.parse` of the credential record and AES-GCM under the
manager's derived key are external primitives; they are modelled as an
abstract authenticated container: encrypting a record under the right key
yields `EncodedData.valid record`, and the decode/decrypt failure
constructors stand for the distinct failure classes the code's checks and
catch block distinguish (base64 decode failure, undersized payload,
authentication-tag failure, JSON parse failure). Everything else —
validation, trimming, the error messages, the structure checks — is
translated from the source. -/

/-- The serialized credential record `{username, password, version}`. -/
structure CredJson where
  username : String
  password : String
  version : String
deriving DecidableEq

/-- Decoded content of a stored blob's `data` field. -/
inductive EncodedData where
  | valid (payload : CredJson)
  | malformed
  | tooShort
  | tampered
  | badJson
deriving DecidableEq

/-- A stored `encryptedCreds` blob `{data, timestamp, version}`; `data = none`
models a missing/empty `data` field. -/
structure EncBlob where
  data : Option EncodedData
  timestamp : Int
  version : String
deriving DecidableEq

/-- JS `String.prototype.trim`: strip leading and trailing whitespace. -/
def jsTrim (s : String) : String :=
  String.mk (((s.data.dropWhile jsSpace).reverse.dropWhile jsSpace).reverse)

/-- `encryptCredentials` (`crypto-utils.js`): reject empty username or
password; otherwise serialize `{username: username.trim(), password,
version}` and encrypt with a fresh nonce. The catch block prefixes thrown
messages with `Failed to encrypt credentials: `. -/
def encryptCredentials (now : Int) (username password : String) :
    Except String EncBlob :=
  if username = "" || password = "" then
    .error "Failed to encrypt credentials: Username and password are required"
  else
    .ok { data := some (.valid ⟨jsTrim username, password, "1.0"⟩)
          timestamp := now
          version := "1.0" }

/-- `decryptCredentials` (`crypto-utils.js`): `null` for a missing blob or
missing `data` field; decode/decrypt/parse/validate otherwise, with the
catch block rewriting failure messages (`OperationError` from the cipher
becomes `Invalid credentials or corrupted data`, a JSON parse error becomes
`Corrupted credential data`, anything else is prefixed with
`Failed to decrypt credentials: `). -/
def decryptCredentials (encryptedData : Option EncBlob) :
    Except String (Option (String × String)) :=
  match encryptedData with
  | none => .ok none
  | some blob =>
    match blob.data with
    | none => .ok none
    | some ed =>
      match ed with
      | .malformed => .error "Failed to decrypt credentials: Invalid encrypted data format"
      | .tooShort => .error "Failed to decrypt credentials: Encrypted data is too short"
      | .tampered => .error "Invalid credentials or corrupted data"
      | .badJson => .error "Corrupted credential data"
      | .valid payload =>
        if payload.username = "" || payload.password = "" then
          .error "Failed to decrypt credentials: Invalid credentials structure"
        else
          .ok (some (payload.username, payload.password))

/-- Encrypt then decrypt with the same manager (the round-trip of §8). -/
def credRoundTrip (now : Int) (username password : String) :
    Except String (Option (String × String)) :=
  match encryptCredentials now username password with
  | .ok blob => decryptCredentials (some blob)
  | .error e => .error e

/-- Printable ASCII characters. -/
def printableStr (s : String) : Bool :=
  s.data.all (fun c => 32 ≤ c.toNat && c.toNat ≤ 126)

/-! ## Network effects -/

/-- A JS exception from a fetch (or from the vault): the bounded-timeout
abort, or a generic `Error` with a message. -/
inductive JSError where
  | abortError
  | error (msg : String)
deriving DecidableEq

/-- Outcome of one `fetch` call: a response (status code and body text) or
a thrown exception. -/
inductive FetchResult where
  | response (status : Nat) (body : String)
  | threw (e : JSError)
deriving DecidableEq

/-- Classification produced by `checkConnectivity`. -/
inductive ProbeResult where
  | connected
  | needsLogin
  | networkDown
deriving DecidableEq

/-- `checkConnectivity` (`background.js` lines 156-219): step 1 probes the
gstatic no-content endpoint (exact 204 means connected); on any failure or
other status, step 2 probes the portal login URL (2xx or 302 means needs
login); otherwise the network is down. -/
def checkConnectivity (r1 r2 : FetchResult) : ProbeResult :=
  let step2 :=
    match r2 with
    | .response st _ =>
      if okStatus st || st = 302 then ProbeResult.needsLogin else ProbeResult.networkDown
    | .threw _ => ProbeResult.networkDown
  match r1 with
  | .response st _ => if st = 204 then .connected else step2
  | .threw _ => step2

/-! ## Login orchestration (`performLogin`) -/

/-- The external interactions of one `performLogin` run: the stored
`encryptedCreds` entry, and the results of the login-page GET and of the
form POST. -/
structure LoginEnv where
  encryptedCreds : Option EncBlob
  loginPage : FetchResult
  submit : FetchResult
deriving DecidableEq

/-- Result of one `performLogin` run: the new state, the delay in seconds
of a scheduled retry (`setTimeout`), if any, and whether the
credentials notification was shown. -/
structure LoginResult where
  state : AuthState
  retryDelay : Option Nat
  notified : Bool
deriving DecidableEq

/-- `successIndicators` (`background.js` line 448). -/
def successIndicators : List String := ["keepalive", "logout", "success", "welcome"]

/-- `errorIndicators` (`background.js` line 449). -/
def errorIndicators : List String := ["invalid", "failed", "incorrect", "error", "login-form"]

/-- JS `String.prototype.toLowerCase` (ASCII). -/
def toLowerStr (s : String) : String := String.mk (s.data.map Char.toLower)

/-- Whether `needle` starts `hay` (case-sensitive). -/
def headRun : List Char → List Char → Bool
  | [], _ => true
  | _ :: _, [] => false
  | n :: ns, c :: cs => n = c && headRun ns cs

/-- Whether `needle` occurs as a contiguous run in `hay` (JS `includes`). -/
def subList (needle hay : List Char) : Bool :=
  match hay with
  | [] => needle.isEmpty
  | _ :: t => headRun needle hay || subList needle t

/-- `responseText.toLowerCase().includes(indicator)`. -/
def bodyHas (body indicator : String) : Bool :=
  subList indicator.data (toLowerStr body).data

/-- `hasSuccess` (`background.js` lines 451-453). -/
def hasSuccessKw (body : String) : Bool :=
  successIndicators.any (fun k => bodyHas body k)

/-- `hasError` (`background.js` lines 454-456). -/
def hasErrorKw (body : String) : Bool :=
  errorIndicators.any (fun k => bodyHas body k)

/-- The success branch of `performLogin` (`background.js` lines 474-489):
connected, renewal scheduled `(sessionTimeout - RENEW_BEFORE) * 1000`
milliseconds from now, retry counter cleared. -/
def loginSuccess (s : AuthState) (now : Int) : LoginResult :=
  let sessionDuration : Int := ((s.sessionTimeout : Int) - (RENEW_BEFORE : Int)) * 1000
  { state :=
      { s with
        status := .connected
        isConnected := true
        lastError := none
        lastLoginAt := some now
        nextRenewAt := some (now + sessionDuration)
        retryCount := 0 }
    retryDelay := none
    notified := false }

/-- The `try` body of `performLogin` (`background.js` lines 345-492).
A thrown exception is returned as `.error` together with the state at the
moment of the throw (the `sessionTimeout` update may already have
happened); an `.ok` is a completed run (early `return` or success). -/
def performLoginTry (s : AuthState) (env : LoginEnv) (now : Int) :
    Except (AuthState × JSError) LoginResult :=
  match env.encryptedCreds with
  | none =>
    .ok { state := { s with status := .error
                            lastError := some "Credentials not configured"
                            isConnected := false }
          retryDelay := none
          notified := true }
  | some blob =>
    match decryptCredentials (some blob) with
    | .error msg => .error (s, .error msg)
    | .ok credsOpt =>
      match credsOpt with
      | none =>
        .ok { state := { s with status := .error
                                lastError := some "Failed to decrypt credentials"
                                isConnected := false }
              retryDelay := none
              notified := true }
      | some (u, p) =>
        if u = "" || p = "" then
          .ok { state := { s with status := .error
                                  lastError := some "Failed to decrypt credentials"
                                  isConnected := false }
                retryDelay := none
                notified := true }
        else
          match env.loginPage with
          | .threw e => .error (s, e)
          | .response st1 html =>
            if !okStatus st1 then
              .error (s, .error ("Failed to fetch login page: " ++ toString st1))
            else
              match (extractFormData html).magic with
              | none => .error (s, .error "Could not find magic token in login page")
              | some _ =>
                let detected := detectSessionTimeout html s.sessionTimeout
                let s := if detected ≠ s.sessionTimeout
                         then { s with sessionTimeout := detected } else s
                match env.submit with
                | .threw e => .error (s, e)
                | .response st2 body =>
                  if st2 = 302 || st2 = 303 then
                    .ok (loginSuccess s now)
                  else if okStatus st2 then
                    if hasSuccessKw body && !hasErrorKw body then
                      .ok (loginSuccess s now)
                    else if hasErrorKw body then
                      .ok { state := { s with status := .error
                                              lastError := some "Invalid credentials"
                                              isConnected := false
                                              retryCount := 0 }
                            retryDelay := none
                            notified := true }
                    else .error (s, .error "Login failed - unexpected response")
                  else .error (s, .error "Login failed - unexpected response")

/-- The `catch` block of `performLogin` (`background.js` lines 494-521):
an `AbortError` (request timeout) reports `Login request timed out` with no
retry and no counter change; any other error retries after
`RETRY_DELAYS[retryCount]` while the counter is below the ladder length,
and otherwise settles into a terminal error with the counter reset. -/
def performLoginCatch (s : AuthState) (e : JSError) : LoginResult :=
  match e with
  | .abortError =>
    { state := { s with status := .error, lastError := some "Login request timed out" }
      retryDelay := none
      notified := false }
  | .error msg =>
    if s.retryCount < RETRY_DELAYS.length then
      { state := { s with status := .error
                          lastError := some msg
                          retryCount := s.retryCount + 1 }
        retryDelay := some (RETRY_DELAYS.getD s.retryCount 0)
        notified := false }
    else
      { state := { s with status := .error
                          lastError := some ("Login failed - " ++ msg)
                          isConnected := false
                          retryCount := 0 }
        retryDelay := none
        notified := false }

/-- `performLogin` (`background.js` lines 341-522). -/
def performLogin (s : AuthState) (env : LoginEnv) (now : Int) : LoginResult :=
  match performLoginTry s env now with
  | .ok r => r
  | .error (s1, e) => performLoginCatch s1 e

/-- `handleNetworkDown` (`background.js` lines 258-277): same ladder and
same `retryCount` field as the login catch block, network-down status and
messages; the scheduled call is `checkAndLogin`. -/
def handleNetworkDown (s : AuthState) : AuthState × Option Nat :=
  if s.retryCount < RETRY_DELAYS.length then
    ({ s with status := .networkDown
              lastError := some "Network unreachable"
              retryCount := s.retryCount + 1 },
     some (RETRY_DELAYS.getD s.retryCount 0))
  else
    ({ s with status := .networkDown
              lastError := some "Network unreachable - max retries exceeded"
              retryCount := 0 },
     none)

/-- The external interactions of one `checkAndLogin` cycle. -/
structure CycleEnv where
  probe1 : FetchResult
  probe2 : FetchResult
  login : LoginEnv
deriving DecidableEq

/-- `state.nextRenewAt && now >= state.nextRenewAt` (`background.js` line
227); a timestamp of `0` is falsy in JS. -/
def shouldRenew (s : AuthState) (now : Int) : Bool :=
  match s.nextRenewAt with
  | some t => t ≠ 0 && now ≥ t
  | none => false

/-- `checkAndLogin` (`background.js` lines 222-255): enter `checking`;
unless forced or renewal is due, probe connectivity and either settle
connected, hand over to network-down handling, or fall through to a login
attempt. -/
def checkAndLogin (s : AuthState) (forced : Bool) (now : Int) (env : CycleEnv) :
    LoginResult :=
  let s1 := { s with status := .checking }
  if !forced && !shouldRenew s1 now then
    match checkConnectivity env.probe1 env.probe2 with
    | .connected =>
      { state := { s1 with status := .connected
                           isConnected := true
                           lastError := none
                           retryCount := 0 }
        retryDelay := none
        notified := false }
    | .networkDown =>
      let p := handleNetworkDown s1
      { state := p.1, retryDelay := p.2, notified := false }
    | .needsLogin => performLogin s1 env.login now
  else performLogin s1 env.login now

/-- The `chrome.storage.onChanged` credential-update handler
(`background.js` lines 600-613): when the current error is one of the three
credential errors, clear it, go idle and reset the retry counter. -/
def credentialsUpdated (s : AuthState) : AuthState :=
  if s.lastError = some "Credentials not configured" ||
     s.lastError = some "Failed to decrypt credentials" ||
     s.lastError = some "Invalid credentials" then
    { s with lastError := none, status := .idle, retryCount := 0 }
  else s

/-- Reaction of the `force-login` message handler. -/
inductive ForceLoginOutcome where
  | rejected (message : String)
  | started (forced : Bool)
deriving DecidableEq

/-- The `force-login` branch of the message handler (`background.js` lines
551-564): already connected or already checking is rejected without
touching the state; otherwise `checkAndLogin(true)` runs. -/
def handleForceLogin (s : AuthState) : AuthState × ForceLoginOutcome :=
  if s.status = .connected then (s, .rejected "Already connected")
  else if s.status = .checking then (s, .rejected "Already checking...")
  else (s, .started true)

/-- One externally triggered mutation of the state: a `checkAndLogin`
cycle (periodic tick, force login, network-down retry, pause-resume), a
scheduled `performLogin` retry, or the credential-update event. -/
inductive Trigger where
  | cycle (forced : Bool) (now : Int) (env : CycleEnv)
  | loginRetry (now : Int) (env : LoginEnv)
  | credsChange

/-- The state-transition function generated by the triggers. -/
def step (s : AuthState) : Trigger → AuthState
  | .cycle f now env => (checkAndLogin s f now env).state
  | .loginRetry now env => (performLogin s env now).state
  | .credsChange => credentialsUpdated s



/-! ## Concrete fixtures used by witnesses and counterexamples -/

/-- A stored blob that decrypts to the credential pair `("u", "p")`. -/
def goodBlob : EncBlob :=
  { data := some (.valid ⟨"u", "p", "1.0"⟩), timestamp := 0, version := "1.0" }

/-- A minimal login page carrying a magic token. -/
def htmlM : String := "name=\"magic\" value=\"m\""

/-- An attempt whose login-page fetch times out (AbortError). -/
def abortEnv : LoginEnv := ⟨some goodBlob, .threw .abortError, .response 200 ""⟩

/-- An attempt whose login-page fetch throws a generic network error. -/
def netErrEnv : LoginEnv := ⟨some goodBlob, .threw (.error "net down"), .response 200 ""⟩

/-- An attempt whose submission comes back 200 with an error keyword. -/
def invalidEnv : LoginEnv := ⟨some goodBlob, .response 200 htmlM, .response 200 "invalid"⟩

/-- An attempt whose stored blob fails its authentication tag. -/
def tamperedEnv : LoginEnv :=
  ⟨some ⟨some .tampered, 0, "1.0"⟩, .response 200 "", .response 200 ""⟩

/-- An attempt that succeeds by redirect. -/
def redirectEnv : LoginEnv := ⟨some goodBlob, .response 200 htmlM, .response 302 ""⟩

/-! ## Helper lemmas -/

/-- The `try` body never touches `retryCount` before throwing: a thrown
error carries a state with the caller's counter. -/
theorem performLoginTry_err_retryCount (s : AuthState) (env : LoginEnv) (now : Int)
    (s1 : AuthState) (e : JSError)
    (h : performLoginTry s env now = .error (s1, e)) :
    s1.retryCount = s.retryCount := by
  unfold performLoginTry at h
  repeat' split at h
  all_goals simp_all [loginSuccess]
  all_goals (obtain ⟨h1, h2⟩ := h; subst h1; try rfl)
  all_goals (split <;> rfl)

/-- Every completed (non-throwing) run of the `try` body either keeps the
counter with an error status, or resets it on success, or resets it on the
invalid-credentials terminal error. -/
theorem performLoginTry_ok_cases (s : AuthState) (env : LoginEnv) (now : Int)
    (r : LoginResult) (h : performLoginTry s env now = .ok r) :
    (r.state.retryCount = s.retryCount ∧ r.state.status = .error) ∨
    (r.state.retryCount = 0 ∧ r.state.status = .connected) ∨
    (r.state.retryCount = 0 ∧ r.state.status = .error ∧
      r.state.lastError = some "Invalid credentials") := by
  unfold performLoginTry at h
  repeat' split at h
  all_goals simp_all [loginSuccess]
  all_goals (subst h; simp)

/-- The conditional `sessionTimeout` update of `performLogin` (lines
403-407) always leaves the detected value in the state. -/
theorem applyTimeout_sessionTimeout (s : AuthState) (d : Nat) :
    (if d ≠ s.sessionTimeout then { s with sessionTimeout := d } else s).sessionTimeout = d := by
  split <;> simp_all

/-! ## Claim C4 -/

/-- C4: one run of the connectivity probe classifies exactly as the code
does: a first-request response of exactly 204 yields `connected`;
otherwise a second-request response with a 2xx (`response.ok`) or 302
status yields `needsLogin`; and if the second request throws or returns
any other status, the result is `networkDown` — no failure cause is
distinguished further. -/
theorem c4_probe_classification (r1 r2 : FetchResult) :
    (∀ b, r1 = .response 204 b → checkConnectivity r1 r2 = .connected) ∧
    ((∀ b, r1 ≠ .response 204 b) →
      (∀ st b, r2 = .response st b → (okStatus st = true ∨ st = 302) →
        checkConnectivity r1 r2 = .needsLogin) ∧
      (∀ e, r2 = .threw e → checkConnectivity r1 r2 = .networkDown) ∧
      (∀ st b, r2 = .response st b → okStatus st = false → st ≠ 302 →
        checkConnectivity r1 r2 = .networkDown)) := by
  constructor
  · intro b h
    subst h
    simp [checkConnectivity]
  · intro h204
    have hr1 : ∀ r : ProbeResult, checkConnectivity r1 r2 = r →
        checkConnectivity r1 r2 = r := fun _ h => h
    refine ⟨?_, ?_, ?_⟩
    · intro st b h hok
      subst h
      cases r1 with
      | response st1 b1 =>
        have hne : st1 ≠ 204 := fun hh => h204 b1 (by rw [hh])
        rcases hok with h | h <;> simp [checkConnectivity, hne, h]
      | threw e =>
        rcases hok with h | h <;> simp [checkConnectivity, h]
    · intro e h
      subst h
      cases r1 with
      | response st1 b1 =>
        have hne : st1 ≠ 204 := fun hh => h204 b1 (by rw [hh])
        simp [checkConnectivity, hne]
      | threw e1 => simp [checkConnectivity]
    · intro st b h hok h302
      subst h
      cases r1 with
      | response st1 b1 =>
        have hne : st1 ≠ 204 := fun hh => h204 b1 (by rw [hh])
        simp [checkConnectivity, hne, hok, h302]
      | threw e1 => simp [checkConnectivity, hok, h302]

/-- Witness for C4: concrete probes hitting each clause. -/
theorem c4_witness :
    checkConnectivity (.response 204 "") (.threw .abortError) = .connected ∧
    checkConnectivity (.threw .abortError) (.response 302 "") = .needsLogin ∧
    checkConnectivity (.response 503 "") (.threw (.error "down")) = .networkDown := by
  refine ⟨?_, ?_, ?_⟩
  · exact (c4_probe_classification (.response 204 "") (.threw .abortError)).1 "" rfl
  · exact ((c4_probe_classification (.threw .abortError) (.response 302 "")).2
      (by intro b h; cases h)).1 302 "" rfl (Or.inr rfl)
  · exact ((c4_probe_classification (.response 503 "") (.threw (.error "down"))).2
      (by intro b h; simp at h)).2.1 _ rfl

/-! ## Claim C3 -/

/-- C3: every successfully classified login attempt (302/303 redirect, or
2xx body with a success keyword and no failure keyword) settles the state
to Connected with `isConnected`, a cleared error, a cleared retry counter,
`lastLoginAt = now`, and
`nextRenewAt = now + (sessionTimeout - 120) * 1000` milliseconds, so that
`nextRenewAt - lastLoginAt` is exactly `(sessionTimeout - 120)` seconds. -/
theorem c3_success_state (s : AuthState) (env : LoginEnv) (now : Int)
    (blob : EncBlob) (u p v : String) (st1 : Nat) (html : String)
    (st2 : Nat) (body : String)
    (hc : env.encryptedCreds = some blob)
    (hd : blob.data = some (.valid ⟨u, p, v⟩))
    (hu : u ≠ "") (hp : p ≠ "")
    (hl : env.loginPage = .response st1 html)
    (ho : okStatus st1 = true)
    (hm : (extractFormData html).magic.isSome)
    (hs : env.submit = .response st2 body)
    (hok : st2 = 302 ∨ st2 = 303 ∨
      (okStatus st2 = true ∧ hasSuccessKw body = true ∧ hasErrorKw body = false)) :
    (performLogin s env now).state.status = .connected ∧
    (performLogin s env now).state.isConnected = true ∧
    (performLogin s env now).state.lastError = none ∧
    (performLogin s env now).state.retryCount = 0 ∧
    (performLogin s env now).state.lastLoginAt = some now ∧
    (performLogin s env now).state.sessionTimeout =
      detectSessionTimeout html s.sessionTimeout ∧
    (performLogin s env now).state.nextRenewAt =
      some (now + (((performLogin s env now).state.sessionTimeout : Int) - 120) * 1000) ∧
    (performLogin s env now).retryDelay = none ∧
    (∃ a b : Int, (performLogin s env now).state.lastLoginAt = some a ∧
      (performLogin s env now).state.nextRenewAt = some b ∧
      b - a = (((performLogin s env now).state.sessionTimeout : Int) - 120) * 1000) := by
  have hdec : decryptCredentials (some blob) = .ok (some (u, p)) := by
    simp [decryptCredentials, hd, hu, hp]
  obtain ⟨m, hm2⟩ := Option.isSome_iff_exists.mp hm
  have hrun : performLogin s env now =
      loginSuccess (if detectSessionTimeout html s.sessionTimeout ≠ s.sessionTimeout
                    then { s with sessionTimeout := detectSessionTimeout html s.sessionTimeout }
                    else s) now := by
    unfold performLogin performLoginTry
    rcases hok with h302 | h303 | ⟨hok2, hsk, hek⟩
    · subst h302
      simp [hc, hdec, hl, hs, ho, hm2, hu, hp]
    · subst h303
      simp [hc, hdec, hl, hs, ho, hm2, hu, hp]
    · have hno : st2 ≠ 302 ∧ st2 ≠ 303 := by
        have h9 := hok2
        unfold okStatus at h9
        simp at h9
        omega
      simp [hc, hdec, hl, hs, ho, hm2, hu, hp, hok2, hsk, hek, hno.1, hno.2]
  rw [hrun]
  have hst := applyTimeout_sessionTimeout s (detectSessionTimeout html s.sessionTimeout)
  revert hst
  generalize (if detectSessionTimeout html s.sessionTimeout ≠ s.sessionTimeout
      then { s with sessionTimeout := detectSessionTimeout html s.sessionTimeout }
      else s) = s2
  intro hst
  simp [loginSuccess, RENEW_BEFORE, hst]

/-- Witness for C3: a concrete 302-redirect success computes the renewal
timestamp `1000 + (1200 - 120) * 1000`. -/
theorem c3_witness :
    (performLogin initialState redirectEnv 1000).state.status = .connected ∧
    (performLogin initialState redirectEnv 1000).state.nextRenewAt = some 1081000 := by
  have h := c3_success_state initialState redirectEnv 1000 goodBlob "u" "p" "1.0"
    200 htmlM 302 "" rfl rfl (by decide) (by decide) rfl (by decide) (by decide)
    rfl (Or.inl rfl)
  obtain ⟨h1, _, _, _, _, h6, h7, _, _⟩ := h
  refine ⟨h1, ?_⟩
  rw [h7, h6]
  decide

/-! ## Claim C5 -/

/-- C5: a 2xx submission response whose body contains a failure keyword
(case-insensitive) drives the orchestrator into a terminal error with
`lastError = "Invalid credentials"`, `retryCount = 0`, no scheduled retry
and a user notification — regardless of any success keyword also being
present. -/
theorem c5_invalid_credentials (s : AuthState) (env : LoginEnv) (now : Int)
    (blob : EncBlob) (u p v : String) (st1 : Nat) (html : String)
    (st2 : Nat) (body : String)
    (hc : env.encryptedCreds = some blob)
    (hd : blob.data = some (.valid ⟨u, p, v⟩))
    (hu : u ≠ "") (hp : p ≠ "")
    (hl : env.loginPage = .response st1 html)
    (ho : okStatus st1 = true)
    (hm : (extractFormData html).magic.isSome)
    (hs : env.submit = .response st2 body)
    (h2 : okStatus st2 = true)
    (he : hasErrorKw body = true) :
    (performLogin s env now).state.status = .error ∧
    (performLogin s env now).state.lastError = some "Invalid credentials" ∧
    (performLogin s env now).state.retryCount = 0 ∧
    (performLogin s env now).state.isConnected = false ∧
    (performLogin s env now).retryDelay = none ∧
    (performLogin s env now).notified = true := by
  have hdec : decryptCredentials (some blob) = .ok (some (u, p)) := by
    simp [decryptCredentials, hd, hu, hp]
  obtain ⟨m, hm2⟩ := Option.isSome_iff_exists.mp hm
  have hno : st2 ≠ 302 ∧ st2 ≠ 303 := by
    have := h2
    unfold okStatus at this
    simp at this
    omega
  have hrun : ∃ s2 : AuthState,
      performLogin s env now =
        ⟨{ s2 with
            status := .error
            lastError := some "Invalid credentials"
            isConnected := false
            retryCount := 0 }, none, true⟩ := by
    refine ⟨if detectSessionTimeout html s.sessionTimeout ≠ s.sessionTimeout
        then { s with sessionTimeout := detectSessionTimeout html s.sessionTimeout }
        else s, ?_⟩
    unfold performLogin performLoginTry
    simp [hc, hdec, hl, hs, ho, hm2, hu, hp, h2, he, hno.1, hno.2]
  obtain ⟨s2, hr⟩ := hrun
  rw [hr]
  exact ⟨rfl, rfl, rfl, rfl, rfl, rfl⟩

/-- Witness for C5: a 200 body reading `welcome ... invalid` (success and
failure keywords together) still lands in the terminal error. -/
theorem c5_witness :
    (performLogin initialState
      ⟨some goodBlob, .response 200 htmlM, .response 200 "welcome invalid"⟩ 0).state.lastError =
      some "Invalid credentials" ∧
    (performLogin initialState
      ⟨some goodBlob, .response 200 htmlM, .response 200 "welcome invalid"⟩ 0).retryDelay = none := by
  have h := c5_invalid_credentials initialState
    ⟨some goodBlob, .response 200 htmlM, .response 200 "welcome invalid"⟩ 0
    goodBlob "u" "p" "1.0" 200 htmlM 200 "welcome invalid"
    rfl rfl (by decide) (by decide) rfl (by decide) (by decide) rfl (by decide) (by decide)
  exact ⟨h.2.1, h.2.2.2.2.1⟩

/-! ## Claim C9 -/

/-- C9 (corrected): if one of the three session-timeout patterns matches,
a matched value under 60 is interpreted as minutes and multiplied by 60;
if no pattern matches, the detector returns the caller's current
`sessionTimeout` value (not an absent marker), so the caller's
inequality-guarded update leaves the state untouched. -/
theorem c9_timeout_detection (html : String) (sessionTimeout : Nat) (s : AuthState) :
    (∀ v, timeoutHint html = some v →
      detectSessionTimeout html sessionTimeout = if v < 60 then v * 60 else v) ∧
    (timeoutHint html = none →
      detectSessionTimeout html sessionTimeout = sessionTimeout) ∧
    (timeoutHint html = none →
      (if detectSessionTimeout html s.sessionTimeout ≠ s.sessionTimeout
       then { s with sessionTimeout := detectSessionTimeout html s.sessionTimeout }
       else s) = s) := by
  refine ⟨?_, ?_, ?_⟩
  · intro v hv
    simp [detectSessionTimeout, hv]
  · intro hv
    simp [detectSessionTimeout, hv]
  · intro hv
    simp [detectSessionTimeout, hv]

/-- Counterexample line for C9: on a no-match page the detector does not
return an absent marker — it returns whatever the caller's current
`sessionTimeout` happens to be (two different callers get two different
results). -/
theorem c9_counterexample :
    timeoutHint "maintenance page" = none ∧
    detectSessionTimeout "maintenance page" 100 = 100 ∧
    detectSessionTimeout "maintenance page" 777 = 777 ∧
    (100 : Nat) ≠ 777 := by decide

/-- Witness for C9: a page advertising `session timeout: 30` (under 60,
so minutes) yields 1800 seconds. -/
theorem c9_witness :
    detectSessionTimeout "session timeout: 30" 1200 = 1800 ∧
    detectSessionTimeout "nothing here" 1200 = 1200 := by
  constructor
  · have h := (c9_timeout_detection "session timeout: 30" 1200 initialState).1 30 (by decide)
    rw [h]
    decide
  · exact (c9_timeout_detection "nothing here" 1200 initialState).2.1 (by decide)

/-! ## Claim C10 -/

/-- C10: a force-login request in status `connected` or `checking` is
answered `{success: false}` with the corresponding message, starts no
cycle and leaves the state unchanged; in every other status it invokes
the check-and-login cycle with forcing enabled. -/
theorem c10_force_login (s : AuthState) :
    (s.status = .connected → handleForceLogin s = (s, .rejected "Already connected")) ∧
    (s.status = .checking → handleForceLogin s = (s, .rejected "Already checking...")) ∧
    (s.status ≠ .connected → s.status ≠ .checking → handleForceLogin s = (s, .started true)) := by
  refine ⟨?_, ?_, ?_⟩
  · intro h
    simp [handleForceLogin, h]
  · intro h
    simp [handleForceLogin, h]
  · intro h1 h2
    simp [handleForceLogin, h1, h2]

/-- Witness for C10: concrete states exercising all three clauses. -/
theorem c10_witness :
    handleForceLogin { initialState with status := .connected } =
      ({ initialState with status := .connected }, .rejected "Already connected") ∧
    handleForceLogin { initialState with status := .checking } =
      ({ initialState with status := .checking }, .rejected "Already checking...") ∧
    handleForceLogin initialState = (initialState, .started true) := by
  refine ⟨?_, ?_, ?_⟩
  · exact (c10_force_login _).1 rfl
  · exact (c10_force_login _).2.1 rfl
  · exact (c10_force_login _).2.2 (by decide) (by decide)


/-! ## Claim C1 -/

/-- C1 (corrected): a transient login failure other than a request timeout
(network error, ambiguous portal response, generic exception), thrown
while `retryCount < 4`, sets status Error with the failure message,
increments `retryCount` by exactly 1 and schedules a retry after
`RETRY_DELAYS[prior retryCount]`; but a request timeout (AbortError) is
handled by a dedicated branch that sets `lastError = "Login request timed
out"` with no increment and no retry. -/
theorem c1_transient_backoff (s : AuthState) (env : LoginEnv) (now : Int)
    (s1 : AuthState) (e : JSError)
    (h : performLoginTry s env now = .error (s1, e)) :
    RETRY_DELAYS = [5, 15, 45, 120] ∧
    s1.retryCount = s.retryCount ∧
    (∀ msg, e = .error msg → s1.retryCount < 4 →
      performLogin s env now =
        ⟨{ s1 with
            status := .error
            lastError := some msg
            retryCount := s1.retryCount + 1 },
         some (RETRY_DELAYS.getD s1.retryCount 0), false⟩) ∧
    (e = .abortError →
      performLogin s env now =
        ⟨{ s1 with status := .error, lastError := some "Login request timed out" },
         none, false⟩) := by
  refine ⟨rfl, performLoginTry_err_retryCount s env now s1 e h, ?_, ?_⟩
  · intro msg hmsg hlt
    subst hmsg
    have hlen : s1.retryCount < RETRY_DELAYS.length := by
      simp only [RETRY_DELAYS, List.length]
      omega
    unfold performLogin
    rw [h]
    simp [performLoginCatch, hlen]
  · intro habort
    subst habort
    unfold performLogin
    rw [h]
    rfl

/-- Counterexample for C1 as stated: a request timeout (AbortError) at
`retryCount = 0 < 4` leaves the counter at 0 (no increment) and schedules
no retry, while the claim demands an increment to 1 and a 5-second
retry. -/
theorem c1_counterexample :
    initialState.retryCount = 0 ∧
    (performLogin initialState abortEnv 0).state.status = .error ∧
    (performLogin initialState abortEnv 0).state.lastError = some "Login request timed out" ∧
    (performLogin initialState abortEnv 0).state.retryCount = 0 ∧
    (performLogin initialState abortEnv 0).retryDelay = none := by decide

/-- Witness for C1: a generic network error at `retryCount = 0` is
retried after 5 seconds with the counter at 1. -/
theorem c1_witness :
    (performLogin initialState netErrEnv 0).state.retryCount = 1 ∧
    (performLogin initialState netErrEnv 0).retryDelay = some 5 ∧
    (performLogin initialState netErrEnv 0).state.lastError = some "net down" := by
  have h := (c1_transient_backoff initialState netErrEnv 0 initialState
    (.error "net down") (by rfl)).2.2.1 "net down" rfl (by decide)
  rw [h]
  decide

/-! ## Claim C7 -/

/-- C7 (corrected): for non-empty printable `(u, p)` whose trimmed
username is non-empty, decrypt-of-encrypt returns
`{username: u.trim(), password: p}`; this equals `(u, p)` exactly when
`u` carries no leading or trailing whitespace, because
`encryptCredentials` serializes the trimmed username. -/
theorem c7_roundtrip (now : Int) (u p : String)
    (hu : u ≠ "") (hp : p ≠ "")
    (_hpu : printableStr u = true) (_hpp : printableStr p = true)
    (ht : jsTrim u ≠ "") :
    credRoundTrip now u p = .ok (some (jsTrim u, p)) ∧
    (jsTrim u = u → credRoundTrip now u p = .ok (some (u, p))) := by
  have henc : encryptCredentials now u p =
      .ok { data := some (.valid ⟨jsTrim u, p, "1.0"⟩)
            timestamp := now
            version := "1.0" } := by
    simp [encryptCredentials, hu, hp]
  have hmain : credRoundTrip now u p = .ok (some (jsTrim u, p)) := by
    unfold credRoundTrip
    rw [henc]
    simp [decryptCredentials, ht, hp]
  exact ⟨hmain, fun he => by rw [hmain, he]⟩

/-- Counterexample for C7 as stated: the non-empty printable pair
`(" a", "x")` round-trips to `("a", "x")`, not to `(" a", "x")` — the
username comes back trimmed. -/
theorem c7_counterexample :
    (" a" : String) ≠ "" ∧ ("x" : String) ≠ "" ∧
    printableStr " a" = true ∧ printableStr "x" = true ∧
    credRoundTrip 0 " a" "x" = .ok (some ("a", "x")) ∧
    (("a", "x") : String × String) ≠ (" a", "x") := by
  refine ⟨by decide, by decide, by decide, by decide, by rfl, by decide⟩

/-- Witness for C7: an already-trimmed pair round-trips to itself. -/
theorem c7_witness : credRoundTrip 0 "alice" "pw" = .ok (some ("alice", "pw")) := by
  exact (c7_roundtrip 0 "alice" "pw" (by decide) (by decide) (by decide) (by decide)
    (by decide)).2 (by decide)

/-! ## Claim C6 -/

/-- C6 (corrected): a missing blob, or a blob whose `data` field is absent
(so decryption returns null), produces a terminal error with the
distinguishing message, no retry and a user notification, recoverable by
the credential-updated event; but a decryption that throws (wrong key,
tampering, corrupted data) propagates to the generic catch and is retried
with backoff while `retryCount < 4`. -/
theorem c6_credential_errors (s : AuthState) (env : LoginEnv) (now : Int) :
    (env.encryptedCreds = none →
      performLogin s env now =
        ⟨{ s with
            status := .error
            lastError := some "Credentials not configured"
            isConnected := false }, none, true⟩) ∧
    (∀ blob, env.encryptedCreds = some blob → blob.data = none →
      performLogin s env now =
        ⟨{ s with
            status := .error
            lastError := some "Failed to decrypt credentials"
            isConnected := false }, none, true⟩) ∧
    (∀ blob msg, env.encryptedCreds = some blob →
      decryptCredentials (some blob) = .error msg → s.retryCount < 4 →
      performLogin s env now =
        ⟨{ s with
            status := .error
            lastError := some msg
            retryCount := s.retryCount + 1 },
         some (RETRY_DELAYS.getD s.retryCount 0), false⟩) ∧
    (∀ s1 : AuthState, s1.lastError = some "Credentials not configured" →
      credentialsUpdated s1 = { s1 with lastError := none, status := .idle, retryCount := 0 }) ∧
    (∀ s1 : AuthState, s1.lastError = some "Failed to decrypt credentials" →
      credentialsUpdated s1 = { s1 with lastError := none, status := .idle, retryCount := 0 }) := by
  refine ⟨?_, ?_, ?_, ?_, ?_⟩
  · intro h
    unfold performLogin performLoginTry
    simp [h]
  · intro blob hb hd2
    unfold performLogin performLoginTry
    simp [hb, decryptCredentials, hd2]
  · intro blob msg hb hdm hlt
    have hlen : s.retryCount < RETRY_DELAYS.length := by
      simp only [RETRY_DELAYS, List.length]
      omega
    unfold performLogin performLoginTry
    simp [hb, hdm, performLoginCatch, hlen]
  · intro s1 h1
    simp [credentialsUpdated, h1]
  · intro s1 h1
    simp [credentialsUpdated, h1]

/-- Counterexample for C6 as stated: a blob that fails its authentication
tag (undecryptable: wrong key or tampering) IS retried — status Error with
the decrypt-failure message, counter bumped to 1 and a 5-second retry
scheduled, contradicting "schedules no retry". -/
theorem c6_counterexample :
    (performLogin initialState tamperedEnv 0).state.lastError =
      some "Invalid credentials or corrupted data" ∧
    (performLogin initialState tamperedEnv 0).state.retryCount = 1 ∧
    (performLogin initialState tamperedEnv 0).retryDelay = some 5 := by decide

/-- Witness for C6: the missing-blob and null-decryption branches at a
concrete state. -/
theorem c6_witness :
    (performLogin initialState ⟨none, .response 200 "", .response 200 ""⟩ 0).state.lastError =
      some "Credentials not configured" ∧
    (performLogin initialState ⟨none, .response 200 "", .response 200 ""⟩ 0).retryDelay = none ∧
    (performLogin initialState ⟨some ⟨none, 0, "1.0"⟩, .response 200 "", .response 200 ""⟩
      0).state.lastError = some "Failed to decrypt credentials" := by
  have h1 := (c6_credential_errors initialState
    ⟨none, .response 200 "", .response 200 ""⟩ 0).1 rfl
  have h2 := (c6_credential_errors initialState
    ⟨some ⟨none, 0, "1.0"⟩, .response 200 "", .response 200 ""⟩ 0).2.1
    ⟨none, 0, "1.0"⟩ rfl rfl
  rw [h1, h2]
  exact ⟨rfl, rfl, rfl⟩

/-! ## Claim C8 -/

/-- C8 (corrected): network-down handling uses the same backoff ladder
and the same exhaustion semantics as login transient failures, and the
SAME shared `retryCount` field — a network-down retry increments the very
counter a subsequent login transient failure reads (only the status and
messages differ). -/
theorem c8_network_down_shared_counter (s : AuthState) :
    (s.retryCount < 4 →
      handleNetworkDown s =
        ({ s with
            status := .networkDown
            lastError := some "Network unreachable"
            retryCount := s.retryCount + 1 },
         some (RETRY_DELAYS.getD s.retryCount 0))) ∧
    (4 ≤ s.retryCount →
      handleNetworkDown s =
        ({ s with
            status := .networkDown
            lastError := some "Network unreachable - max retries exceeded"
            retryCount := 0 }, none)) ∧
    (∀ (env : LoginEnv) (now : Int) (s1 : AuthState) (msg : String),
      s.retryCount + 1 < 4 →
      performLoginTry (handleNetworkDown s).1 env now = .error (s1, .error msg) →
      (performLogin (handleNetworkDown s).1 env now).retryDelay =
        some (RETRY_DELAYS.getD (s.retryCount + 1) 0) ∧
      (performLogin (handleNetworkDown s).1 env now).state.retryCount = s.retryCount + 2) := by
  have hfirst : s.retryCount < 4 →
      handleNetworkDown s =
        ({ s with
            status := .networkDown
            lastError := some "Network unreachable"
            retryCount := s.retryCount + 1 },
         some (RETRY_DELAYS.getD s.retryCount 0)) := by
    intro hlt
    have hlen : s.retryCount < RETRY_DELAYS.length := by
      simp only [RETRY_DELAYS, List.length]
      omega
    simp [handleNetworkDown, hlen]
  refine ⟨hfirst, ?_, ?_⟩
  · intro hge
    have hlen : ¬ s.retryCount < RETRY_DELAYS.length := by
      simp only [RETRY_DELAYS, List.length]
      omega
    simp [handleNetworkDown, hlen]
  · intro env now s1 msg hlt htry
    have hnd := hfirst (by omega)
    have hpres := performLoginTry_err_retryCount (handleNetworkDown s).1 env now s1
      (.error msg) htry
    have hs1 : s1.retryCount = s.retryCount + 1 := by
      rw [hpres, hnd]
    have hlen : s1.retryCount < RETRY_DELAYS.length := by
      simp only [RETRY_DELAYS, List.length]
      omega
    have hrun : performLogin (handleNetworkDown s).1 env now =
        ⟨{ s1 with
            status := .error
            lastError := some msg
            retryCount := s1.retryCount + 1 },
         some (RETRY_DELAYS.getD s1.retryCount 0), false⟩ := by
      unfold performLogin
      rw [htry]
      simp [performLoginCatch, hlen]
    rw [hrun, hs1]
    exact ⟨rfl, rfl⟩

/-- Counterexample for C8 as stated: one network-down failure moves the
shared counter to 1, and the next login transient failure then retries
after 15 seconds (ladder index 1) instead of 5 — the network-down retry
mutated the counter the login failure reads, so the counters are not
independent. -/
theorem c8_counterexample :
    (handleNetworkDown initialState).1.retryCount = 1 ∧
    (performLogin initialState netErrEnv 0).retryDelay = some 5 ∧
    (performLogin (handleNetworkDown initialState).1 netErrEnv 0).retryDelay = some 15 ∧
    (performLogin (handleNetworkDown initialState).1 netErrEnv 0).state.retryCount = 2 := by
  decide

/-- Witness for C8: the ladder and exhaustion clauses at concrete
counters. -/
theorem c8_witness :
    handleNetworkDown initialState =
      ({ initialState with
          status := .networkDown
          lastError := some "Network unreachable"
          retryCount := 1 }, some 5) ∧
    handleNetworkDown { initialState with retryCount := 4 } =
      ({ initialState with
          status := .networkDown
          lastError := some "Network unreachable - max retries exceeded"
          retryCount := 0 }, none) := by
  have h1 := (c8_network_down_shared_counter initialState).1 (by decide)
  have h2 := (c8_network_down_shared_counter { initialState with retryCount := 4 }).2.1
    (by decide)
  rw [h1, h2]
  decide


/-! ## Claim C2 -/

/-- Counter behavior of one `performLogin` run: the counter is unchanged
with a non-Connected outcome, or reset on success / the
invalid-credentials terminal error / ladder exhaustion, or bumped by one
below the ladder length. -/
theorem performLogin_retry_cases (s : AuthState) (env : LoginEnv) (now : Int) :
    ((performLogin s env now).state.retryCount = s.retryCount ∧
      (performLogin s env now).state.status ≠ .connected) ∨
    ((performLogin s env now).state.retryCount = 0 ∧
      ((performLogin s env now).state.status = .connected ∨
       (performLogin s env now).state.lastError = some "Invalid credentials" ∨
       4 ≤ s.retryCount)) ∨
    (s.retryCount < 4 ∧
      (performLogin s env now).state.retryCount = s.retryCount + 1 ∧
      (performLogin s env now).state.status ≠ .connected) := by
  cases htry : performLoginTry s env now with
  | ok r =>
    have hrun : performLogin s env now = r := by
      unfold performLogin
      rw [htry]
    rw [hrun]
    rcases performLoginTry_ok_cases s env now r htry with ⟨h1, h2⟩ | ⟨h1, h2⟩ | ⟨h1, h2, h3⟩
    · exact Or.inl ⟨h1, by simp [h2]⟩
    · exact Or.inr (Or.inl ⟨h1, Or.inl h2⟩)
    · exact Or.inr (Or.inl ⟨h1, Or.inr (Or.inl h3)⟩)
  | error p =>
    obtain ⟨s1, e⟩ := p
    have hrun : performLogin s env now = performLoginCatch s1 e := by
      unfold performLogin
      rw [htry]
    have hpres := performLoginTry_err_retryCount s env now s1 e htry
    rw [hrun]
    cases e with
    | abortError =>
      left
      exact ⟨by simp [performLoginCatch, hpres], by simp [performLoginCatch]⟩
    | error msg =>
      by_cases hlt : s1.retryCount < RETRY_DELAYS.length
      · right; right
        refine ⟨?_, ?_, ?_⟩
        · rw [← hpres]
          simpa [RETRY_DELAYS] using hlt
        · simp [performLoginCatch, hlt]
          omega
        · simp [performLoginCatch, hlt]
      · right; left
        refine ⟨by simp [performLoginCatch, hlt], Or.inr (Or.inr ?_)⟩
        rw [← hpres]
        simpa [RETRY_DELAYS] using Nat.le_of_not_lt hlt

/-- Counter behavior of `handleNetworkDown`: bump below the ladder length,
reset at exhaustion; the status is never Connected. -/
theorem handleNetworkDown_cases (s : AuthState) :
    ((handleNetworkDown s).1.retryCount = s.retryCount + 1 ∧ s.retryCount < 4 ∧
      (handleNetworkDown s).1.status = .networkDown) ∨
    ((handleNetworkDown s).1.retryCount = 0 ∧ 4 ≤ s.retryCount ∧
      (handleNetworkDown s).1.status = .networkDown) := by
  by_cases hlt : s.retryCount < RETRY_DELAYS.length
  · left
    refine ⟨by simp [handleNetworkDown, hlt], ?_, by simp [handleNetworkDown, hlt]⟩
    simpa [RETRY_DELAYS] using hlt
  · right
    refine ⟨by simp [handleNetworkDown, hlt], ?_, by simp [handleNetworkDown, hlt]⟩
    simpa [RETRY_DELAYS] using Nat.le_of_not_lt hlt

/-- Counter behavior of one `checkAndLogin` cycle, in the same shape as
`performLogin_retry_cases`. -/
theorem checkAndLogin_retry_cases (s : AuthState) (f : Bool) (now : Int) (env : CycleEnv) :
    ((checkAndLogin s f now env).state.retryCount = s.retryCount ∧
      (checkAndLogin s f now env).state.status ≠ .connected) ∨
    ((checkAndLogin s f now env).state.retryCount = 0 ∧
      ((checkAndLogin s f now env).state.status = .connected ∨
       (checkAndLogin s f now env).state.lastError = some "Invalid credentials" ∨
       4 ≤ s.retryCount)) ∨
    (s.retryCount < 4 ∧
      (checkAndLogin s f now env).state.retryCount = s.retryCount + 1 ∧
      (checkAndLogin s f now env).state.status ≠ .connected) := by
  by_cases hcond : (!f && !shouldRenew { s with status := .checking } now) = true
  · cases hpr : checkConnectivity env.probe1 env.probe2 with
    | connected =>
      have hrun : checkAndLogin s f now env =
          ⟨{ s with
              status := .connected
              isConnected := true
              lastError := none
              retryCount := 0 }, none, false⟩ := by
        unfold checkAndLogin
        rw [if_pos hcond, hpr]
      rw [hrun]
      exact Or.inr (Or.inl ⟨rfl, Or.inl rfl⟩)
    | needsLogin =>
      have hrun : checkAndLogin s f now env =
          performLogin { s with status := .checking } env.login now := by
        unfold checkAndLogin
        rw [if_pos hcond, hpr]
      rw [hrun]
      have h := performLogin_retry_cases { s with status := .checking } env.login now
      simpa using h
    | networkDown =>
      have hrun : checkAndLogin s f now env =
          ⟨(handleNetworkDown { s with status := .checking }).1,
           (handleNetworkDown { s with status := .checking }).2, false⟩ := by
        unfold checkAndLogin
        rw [if_pos hcond, hpr]
      rw [hrun]
      have h := handleNetworkDown_cases { s with status := .checking }
      rcases h with ⟨h1, h2, h3⟩ | ⟨h1, h2, h3⟩
      · right; right
        exact ⟨by simpa using h2, by simpa using h1, by simp [h3]⟩
      · right; left
        exact ⟨h1, Or.inr (Or.inr (by simpa using h2))⟩
  · have hrun : checkAndLogin s f now env =
        performLogin { s with status := .checking } env.login now := by
      unfold checkAndLogin
      rw [if_neg hcond]
    rw [hrun]
    have h := performLogin_retry_cases { s with status := .checking } env.login now
    simpa using h

/-- C2 (corrected): across every trigger-driven transition, a reset of a
non-zero `retryCount` to 0 happens only on a transition to Connected, on
retry-ladder exhaustion (a failure with the counter already at 4), on the
credential-update reset — or, additionally to the claim, on the
invalid-credentials terminal error; every transition into Connected
clears the counter, and the counter never exceeds the ladder length 4. -/
theorem c2_retry_invariant (s : AuthState) (t : Trigger) :
    ((step s t).retryCount = 0 → s.retryCount ≠ 0 →
      ((step s t).status = .connected ∨ 4 ≤ s.retryCount ∨
       (step s t).lastError = some "Invalid credentials" ∨ t = .credsChange)) ∧
    ((step s t).status = .connected → s.status ≠ .connected → (step s t).retryCount = 0) ∧
    (s.retryCount ≤ 4 → (step s t).retryCount ≤ 4) := by
  cases t with
  | credsChange =>
    simp only [step]
    refine ⟨fun _ _ => Or.inr (Or.inr (Or.inr (by trivial))), ?_, ?_⟩
    · intro hconn hne
      exfalso
      unfold credentialsUpdated at hconn
      split at hconn
      · simp at hconn
      · exact hne hconn
    · intro hb
      unfold credentialsUpdated
      split
      · simp
      · exact hb
  | loginRetry now env =>
    simp only [step]
    have hc := performLogin_retry_cases s env now
    refine ⟨?_, ?_, ?_⟩
    · intro h0 hne
      rcases hc with ⟨h1, _⟩ | ⟨_, h2⟩ | ⟨_, h1, _⟩
      · exact absurd (h1.symm.trans h0) hne
      · rcases h2 with h | h | h
        · exact Or.inl h
        · exact Or.inr (Or.inr (Or.inl h))
        · exact Or.inr (Or.inl h)
      · omega
    · intro hconn _
      rcases hc with ⟨_, h2⟩ | ⟨h1, _⟩ | ⟨_, _, h2⟩
      · exact absurd hconn h2
      · exact h1
      · exact absurd hconn h2
    · intro hb
      rcases hc with ⟨h1, _⟩ | ⟨h1, _⟩ | ⟨hlt, h1, _⟩ <;> omega
  | cycle f now env =>
    simp only [step]
    have hc := checkAndLogin_retry_cases s f now env
    refine ⟨?_, ?_, ?_⟩
    · intro h0 hne
      rcases hc with ⟨h1, _⟩ | ⟨_, h2⟩ | ⟨_, h1, _⟩
      · exact absurd (h1.symm.trans h0) hne
      · rcases h2 with h | h | h
        · exact Or.inl h
        · exact Or.inr (Or.inr (Or.inl h))
        · exact Or.inr (Or.inl h)
      · omega
    · intro hconn _
      rcases hc with ⟨_, h2⟩ | ⟨h1, _⟩ | ⟨_, _, h2⟩
      · exact absurd hconn h2
      · exact h1
      · exact absurd hconn h2
    · intro hb
      rcases hc with ⟨h1, _⟩ | ⟨h1, _⟩ | ⟨hlt, h1, _⟩ <;> omega

/-- Counterexample for C2 as stated: from `retryCount = 1`, a scheduled
login retry whose 200 response body contains a failure keyword resets the
counter to 0 while transitioning to the terminal Error("Invalid
credentials") state — not a transition to Connected, not exhaustion
(the counter was 1, not 4), and not a credential-update trigger. -/
theorem c2_counterexample :
    ({ initialState with retryCount := 1 } : AuthState).retryCount = 1 ∧
    (step { initialState with retryCount := 1 } (.loginRetry 0 invalidEnv)).retryCount = 0 ∧
    (step { initialState with retryCount := 1 } (.loginRetry 0 invalidEnv)).status = .error ∧
    (step { initialState with retryCount := 1 } (.loginRetry 0 invalidEnv)).status ≠ .connected ∧
    (step { initialState with retryCount := 1 } (.loginRetry 0 invalidEnv)).lastError =
      some "Invalid credentials" ∧
    ¬ 4 ≤ ({ initialState with retryCount := 1 } : AuthState).retryCount := by decide

/-- Witness for C2: a fifth consecutive transient failure (counter at 4)
resets the counter; the theorem instance places it among the allowed
reset causes. -/
theorem c2_witness :
    (step { initialState with retryCount := 4 } (.loginRetry 0 netErrEnv)).status = .connected ∨
    4 ≤ ({ initialState with retryCount := 4 } : AuthState).retryCount ∨
    (step { initialState with retryCount := 4 } (.loginRetry 0 netErrEnv)).lastError =
      some "Invalid credentials" ∨
    (Trigger.loginRetry 0 netErrEnv) = Trigger.credsChange := by
  exact (c2_retry_invariant { initialState with retryCount := 4 }
    (.loginRetry 0 netErrEnv)).1 (by decide) (by decide)
